import Mathlib

/-!
Shallow embedding of the BrewOS cloud relay plane: the Device Relay
(src/device-relay.ts), the Client Proxy (client proxy module concatenated in
src/routes/logs.ts), and the HTTP request/response helper sendDeviceRequest
(src/routes/logs.ts).  Machine integers are Nat (millisecond instants), the
JS Map is an association list with unique keys, WebSocket effects (frames
written, publications to subscribers, scheduled close events) are recorded in
explicit output lists on the state.
-/

/-- Timing constants from the sources (milliseconds). -/
def MESSAGE_QUEUE_TTL_MS : Nat := 10000

/-- Maximum number of queued messages per device. -/
def MAX_QUEUED_MESSAGES : Nat := 50

/-- Maximum retries recorded for a queued message. -/
def MAX_MESSAGE_RETRIES : Nat := 3

/-- Cache is considered stale past this age. -/
def CACHE_STALE_THRESHOLD_MS : Nat := 10000

/-- DeviceMessage is a loose tagged map in the source; the fields used by the
relay plane are modelled explicitly, `payload` stands for the remaining
type-specific fields.  Instants that the source carries as ISO strings
(lastSeen) are kept as instants here; only their presence or absence matters
to the claims. -/
structure DeviceMessage where
  type : String
  deviceId : Option String := none
  timestamp : Option Nat := none
  requestId : Option String := none
  message : Option String := none
  online : Option Bool := none
  lastSeen : Option Nat := none
  messageQueued : Option Bool := none
  queuedMessages : Option Nat := none
  queueTTL : Option Nat := none
  originalTimestamp : Option Nat := none
  messageType : Option String := none
  payload : Nat := 0
  deriving DecidableEq, Repr

/-- WebSocket readyState values. -/
inductive ReadyState where
  | CONNECTING
  | OPEN
  | CLOSING
  | CLOSED
  deriving DecidableEq, Repr

/-- Lookup in a JS Map modelled as an association list. -/
def mapLookup {α : Type} (m : List (String × α)) (k : String) : Option α :=
  match m with
  | [] => none
  | (k1, v) :: rest => if k1 = k then some v else mapLookup rest k

/-- Map.set: replace the entry in place when the key is present, append it
otherwise. -/
def mapSet {α : Type} (m : List (String × α)) (k : String) (v : α) :
    List (String × α) :=
  match m with
  | [] => [(k, v)]
  | (k1, v1) :: rest =>
      if k1 = k then (k, v) :: rest else (k1, v1) :: mapSet rest k v

/-- Map.delete. -/
def mapDelete {α : Type} (m : List (String × α)) (k : String) :
    List (String × α) :=
  m.filter (fun p => !(p.1 == k))

theorem mapLookup_mapSet_self {α : Type} (m : List (String × α)) (k : String)
    (v : α) : mapLookup (mapSet m k v) k = some v := by
  induction m with
  | nil => simp [mapSet, mapLookup]
  | cons hd tl ih =>
      by_cases h : hd.1 = k
      · simp [mapSet, mapLookup, h]
      · simp [mapSet, mapLookup, h, ih]

theorem mapLookup_mapSet_other {α : Type} (m : List (String × α))
    (k k2 : String) (v : α) (h : k2 ≠ k) :
    mapLookup (mapSet m k v) k2 = mapLookup m k2 := by
  induction m with
  | nil => simp [mapSet, mapLookup, Ne.symm h]
  | cons hd tl ih =>
      by_cases hk : hd.1 = k
      · subst hk
        simp [mapSet, mapLookup, Ne.symm h]
      · simp only [mapSet, if_neg hk]
        by_cases hk2 : hd.1 = k2
        · simp [mapLookup, hk2]
        · simp [mapLookup, hk2, ih]

theorem mapLookup_mapDelete_self {α : Type} (m : List (String × α))
    (k : String) : mapLookup (mapDelete m k) k = none := by
  induction m with
  | nil => simp [mapDelete, mapLookup]
  | cons hd tl ih =>
      by_cases h : hd.1 = k
      · simpa [mapDelete, mapLookup, List.filter_cons, h] using ih
      · simpa [mapDelete, mapLookup, List.filter_cons, h] using ih

theorem mapLookup_mapDelete_other {α : Type} (m : List (String × α))
    (k k2 : String) (h : k2 ≠ k) :
    mapLookup (mapDelete m k) k2 = mapLookup m k2 := by
  induction m with
  | nil => simp [mapDelete, mapLookup]
  | cons hd tl ih =>
      by_cases hk : hd.1 = k
      · subst hk
        simpa [mapDelete, mapLookup, List.filter_cons, Ne.symm h] using ih
      · by_cases hk2 : hd.1 = k2
        · simp [mapDelete, mapLookup, List.filter_cons, hk, hk2, h]
        · simpa [mapDelete, mapLookup, List.filter_cons, hk, hk2, h] using ih

/-- DeviceConnection from device-relay.ts; the readyState and closeCode of the
underlying socket are folded into the record since the record owns its
socket. -/
structure DeviceConnection where
  sockId : Nat
  readyState : ReadyState
  closeCode : Option Nat := none
  connectedAt : Nat
  lastSeen : Nat
  missedPings : Nat
  deriving DecidableEq, Repr

/-- Close events are emitted asynchronously by ws: initiating close or
terminate schedules the close event; the registered close handler runs only
when that event is later delivered. -/
structure CloseEvent where
  deviceId : String
  sockId : Nat
  code : Nat
  deriving DecidableEq, Repr

/-- State of the Device Relay: the registry plus the observable effect
streams (publications to onDeviceMessage subscribers, frames written to
device sockets, scheduled-but-undelivered close events). -/
structure RelayState where
  devices : List (String × DeviceConnection) := []
  pendingCloseEvents : List CloseEvent := []
  pubs : List (String × DeviceMessage) := []
  deviceSends : List (String × DeviceMessage) := []
  deriving Repr

/-- sendToDevice (device-relay.ts lines 358-366): true iff the device is
registered and its socket is OPEN; the JSON-encoded frame write is recorded
in deviceSends. -/
def sendToDevice (st : RelayState) (deviceId : String) (message : DeviceMessage) :
    RelayState × Bool :=
  match mapLookup st.devices deviceId with
  | none => (st, false)
  | some connection =>
      if connection.readyState = ReadyState.OPEN then
        ({ st with deviceSends := st.deviceSends ++ [(deviceId, message)] }, true)
      else
        (st, false)

/-- isDeviceConnected (device-relay.ts lines 371-374). -/
def isDeviceConnected (st : RelayState) (deviceId : String) : Bool :=
  match mapLookup st.devices deviceId with
  | some connection => connection.readyState = ReadyState.OPEN
  | none => false

/-- getConnectedDeviceCount (device-relay.ts lines 379-381). -/
def getConnectedDeviceCount (st : RelayState) : Nat :=
  st.devices.length

/-- getDeviceLastSeen (device-relay.ts lines 402-405): lastSeen of the
registry entry, null when no entry is present. -/
def getDeviceLastSeen (st : RelayState) (deviceId : String) : Option Nat :=
  (mapLookup st.devices deviceId).map (fun c => c.lastSeen)

/-- Hexadecimal digit in either case. -/
def isDeviceIdHexChar (c : Char) : Bool :=
  (48 ≤ c.toNat && c.toNat ≤ 57) || (65 ≤ c.toNat && c.toNat ≤ 70) ||
    (97 ≤ c.toNat && c.toNat ≤ 102)

/-- Device id format check, the regex BRW-[A-F0-9]{8} applied
case-insensitively (device-relay.ts line 111). -/
def isValidDeviceIdFormat (s : String) : Bool :=
  match s.data with
  | b :: r :: w :: dash :: rest =>
      (b == 'B' || b == 'b') && (r == 'R' || r == 'r') && (w == 'W' || w == 'w') &&
        dash == '-' && rest.length == 8 && rest.all isDeviceIdHexChar
  | _ => false

/-- Result of the device accept path. -/
inductive ConnectResult where
  | rejected (code : Nat) (reason : String)
  | accepted
  deriving DecidableEq, Repr

/-- handleConnection (device-relay.ts lines 98-323).  The key verification
against the database is an oracle argument.  Closing the existing connection
only schedules the close event of the old socket; what runs synchronously is
the registration of the new connection, the welcome and request_state sends,
and the device_online publication.  The database status update is an external
effect and is not modelled. -/
def handleConnection (st : RelayState) (deviceIdParam deviceKeyParam : Option String)
    (keyValid : Bool) (sock : Nat) (now : Nat) : RelayState × ConnectResult :=
  match deviceIdParam, deviceKeyParam with
  | some deviceId, some deviceKey =>
      if !isValidDeviceIdFormat deviceId then
        (st, ConnectResult.rejected 4001 ("Invalid device ID format"))
      else if deviceKey.length < 32 || deviceKey.length > 64 then
        (st, ConnectResult.rejected 4003 ("Invalid device key format"))
      else if !keyValid then
        (st, ConnectResult.rejected 4003 ("Invalid device credentials"))
      else
        let pend :=
          match mapLookup st.devices deviceId with
          | some existing =>
              st.pendingCloseEvents ++ [⟨deviceId, existing.sockId, 4002⟩]
          | none => st.pendingCloseEvents
        let connection : DeviceConnection :=
          { sockId := sock
            readyState := ReadyState.OPEN
            connectedAt := now
            lastSeen := now
            missedPings := 0 }
        let st1 : RelayState :=
          { st with
            devices := mapSet st.devices deviceId connection
            pendingCloseEvents := pend }
        let st2 := (sendToDevice st1 deviceId
          { type := "connected", timestamp := some now }).1
        let st3 := (sendToDevice st2 deviceId
          { type := "request_state", timestamp := some now }).1
        ({ st3 with pubs := st3.pubs ++ [(deviceId, { type := "device_online" })] },
          ConnectResult.accepted)
  | _, _ => (st, ConnectResult.rejected 4001 ("Missing device ID or key"))

/-- Delivery of a close event: the close handler registered in
handleConnection (device-relay.ts lines 289-305) captures deviceId and
unconditionally deletes that registry key, then publishes device_offline. -/
def handleDeviceClose (st : RelayState) (ev : CloseEvent) : RelayState :=
  { st with
    devices := mapDelete st.devices ev.deviceId
    pendingCloseEvents := st.pendingCloseEvents.erase ev
    pubs := st.pubs ++ [(ev.deviceId, { type := "device_offline" })] }

/-- disconnectDevice (device-relay.ts lines 411-422): closes the socket with
code 4000; the registry entry remains until the close event is delivered. -/
def disconnectDevice (st : RelayState) (deviceId : String) : RelayState × Bool :=
  match mapLookup st.devices deviceId with
  | none => (st, false)
  | some connection =>
      let closing := { connection with
                       readyState := ReadyState.CLOSING
                       closeCode := some 4000 }
      ({ st with
         devices := mapSet st.devices deviceId closing
         pendingCloseEvents :=
           st.pendingCloseEvents ++ [⟨deviceId, connection.sockId, 4000⟩] },
        true)

/-- Device pong handler (device-relay.ts lines 154-157). -/
def deviceOnPong (c : DeviceConnection) (now : Nat) : DeviceConnection :=
  { c with missedPings := 0, lastSeen := now }

/-- Connection-field effect of the device message handler (device-relay.ts
lines 167-169): any frame marks the device alive before decoding begins. -/
def deviceOnMessageFrame (c : DeviceConnection) (now : Nat) : DeviceConnection :=
  { c with lastSeen := now, missedPings := 0 }

/-- ConnectionMetrics of a client connection; the floating point RTT fields
(lastPingRTT, avgPingRTT) are not modelled, the integer counters are. -/
structure ConnectionMetrics where
  messagesSent : Nat := 0
  messagesReceived : Nat := 0
  pingCount : Nat := 0
  reconnectCount : Nat := 0
  deriving DecidableEq, Repr

/-- ClientConnection from the client proxy; wsOpen models
ws.readyState being OPEN. -/
structure ClientConnection where
  sessionId : String
  userId : String
  deviceId : String
  wsOpen : Bool := true
  connectedAt : Nat := 0
  lastActivity : Nat := 0
  missedPongs : Nat := 0
  metrics : ConnectionMetrics := {}
  deriving DecidableEq, Repr

/-- Client pong handler (client proxy lines 651-667): resets missedPongs,
refreshes lastActivity; RTT bookkeeping acts on the unmodelled float
fields. -/
def clientOnPong (c : ClientConnection) (now : Nat) : ClientConnection :=
  { c with missedPongs := 0, lastActivity := now }

/-- Connection-field effect of the client message handler (client proxy
lines 670-674) before the frame is parsed: lastActivity is refreshed and the
received counter is incremented; missedPongs is left untouched there. -/
def clientOnMessageFrame (c : ClientConnection) (now : Nat) : ClientConnection :=
  { c with
    lastActivity := now
    metrics := { c.metrics with
                 messagesReceived := c.metrics.messagesReceived + 1 } }

/-- PendingMessage of the offline queue. -/
structure PendingMessage where
  message : DeviceMessage
  timestamp : Nat
  retries : Nat
  clientSessionId : String
  deriving DecidableEq, Repr

/-- Per-device state cache entry. -/
structure DeviceStateCache where
  status : Option DeviceMessage := none
  device_info : Option DeviceMessage := none
  esp_status : Option DeviceMessage := none
  pico_status : Option DeviceMessage := none
  lastUpdated : Nat
  deriving DecidableEq, Repr

/-- State of the Client Proxy: registries plus the record of frames written
to client sockets (clientSends). -/
structure ProxyState where
  clients : List (String × ClientConnection) := []
  deviceClients : List (String × List String) := []
  pendingMessages : List (String × List PendingMessage) := []
  deviceStateCache : List (String × DeviceStateCache) := []
  clientSends : List (String × DeviceMessage) := []
  deriving Repr

/-- sendToClient (client proxy lines 1141-1145): writes only when the socket
is open, silently skips otherwise. -/
def sendToClient (proxy : ProxyState) (client : ClientConnection)
    (message : DeviceMessage) : ProxyState :=
  if client.wsOpen then
    { proxy with clientSends := proxy.clientSends ++ [(client.sessionId, message)] }
  else
    proxy

/-- queueMessageForDevice (client proxy lines 951-974): ensure the per-device
queue exists, evict the head when the queue is at capacity, append the new
entry at the tail. -/
def queueMessageForDevice (pendingMessages : List (String × List PendingMessage))
    (deviceId : String) (message : DeviceMessage) (clientSessionId : String)
    (now : Nat) : List (String × List PendingMessage) :=
  let queue := (mapLookup pendingMessages deviceId).getD []
  let queue := if MAX_QUEUED_MESSAGES ≤ queue.length then queue.tail else queue
  let entry : PendingMessage :=
    { message := message, timestamp := now, retries := 0,
      clientSessionId := clientSessionId }
  mapSet pendingMessages deviceId (queue ++ [entry])

/-- Queue entry expiry test, now - timestamp > TTL in the source; truncated
Nat subtraction agrees with the JS comparison (a negative difference is
never greater than the TTL). -/
def isExpired (now : Nat) (pending : PendingMessage) : Bool :=
  decide (MESSAGE_QUEUE_TTL_MS < now - pending.timestamp)

/-- Notification sent to the originating client on a successful flush send
(client proxy lines 1003-1007). -/
def queuedSentNote (pending : PendingMessage) : DeviceMessage :=
  { type := "queued_message_sent"
    originalTimestamp := some pending.timestamp
    messageType := some pending.message.type }

/-- Accumulator of the flush loop. -/
structure FlushAcc where
  relay : RelayState
  proxy : ProxyState
  sentCount : Nat
  deriving Repr

/-- Body of the flush loop (client proxy lines 996-1012).  On success the
originating client, when still registered, is notified; on failure the source
increments the retries field of the entry, which is dead once the queue is
deleted at the end of the flush, so that write is not modelled. -/
def flushStep (deviceId : String) (acc : FlushAcc) (pending : PendingMessage) :
    FlushAcc :=
  let sendRes := sendToDevice acc.relay deviceId pending.message
  if sendRes.2 then
    let proxyAfter :=
      match mapLookup acc.proxy.clients pending.clientSessionId with
      | some client => sendToClient acc.proxy client (queuedSentNote pending)
      | none => acc.proxy
    { relay := sendRes.1, proxy := proxyAfter, sentCount := acc.sentCount + 1 }
  else
    { acc with relay := sendRes.1 }

/-- flushPendingMessages (client proxy lines 979-1022). -/
def flushPendingMessages (relay : RelayState) (proxy : ProxyState)
    (deviceId : String) (now : Nat) : RelayState × ProxyState :=
  match mapLookup proxy.pendingMessages deviceId with
  | none => (relay, proxy)
  | some queue =>
      if queue.isEmpty then (relay, proxy)
      else
        let validMessages := queue.filter (fun pending => !(isExpired now pending))
        let acc := validMessages.foldl (flushStep deviceId)
          { relay := relay, proxy := proxy, sentCount := 0 }
        (acc.relay,
          { acc.proxy with
            pendingMessages := mapDelete acc.proxy.pendingMessages deviceId })

/-- updateStateCache (client proxy lines 1099-1127): ensure an entry exists,
then store the message by type; status_delta refreshes lastUpdated only. -/
def updateStateCache (cacheMap : List (String × DeviceStateCache))
    (deviceId : String) (message : DeviceMessage) (now : Nat) :
    List (String × DeviceStateCache) :=
  let cacheMap :=
    match mapLookup cacheMap deviceId with
    | none => mapSet cacheMap deviceId { lastUpdated := now }
    | some _ => cacheMap
  let cache := (mapLookup cacheMap deviceId).getD { lastUpdated := now }
  let cache :=
    if message.type = "status" then
      { cache with status := some message, lastUpdated := now }
    else if message.type = "status_delta" then
      { cache with lastUpdated := now }
    else if message.type = "device_info" then
      { cache with device_info := some message, lastUpdated := now }
    else if message.type = "esp_status" then
      { cache with esp_status := some message, lastUpdated := now }
    else if message.type = "pico_status" then
      { cache with pico_status := some message, lastUpdated := now }
    else cache
  mapSet cacheMap deviceId cache

/-- Observable result of the hydration block of the client accept path. -/
structure HydrationResult where
  framesSent : List DeviceMessage
  requestStateSent : Bool
  deriving DecidableEq, Repr

/-- Hydration of a newly accepted client (client proxy lines 709-765): with a
cache entry and the device online, the present slots are sent in the order
status, device_info, esp_status, pico_status and request_state goes to the
device only when the cache age exceeds the staleness threshold; with no
entry and the device online, request_state is sent; with the device offline,
nothing is sent. -/
def hydrateClient (cachedState : Option DeviceStateCache) (deviceOnline : Bool)
    (now : Nat) : HydrationResult :=
  match cachedState, deviceOnline with
  | some cache, true =>
      let cacheAge := now - cache.lastUpdated
      let isCacheStale := decide (CACHE_STALE_THRESHOLD_MS < cacheAge)
      let frames :=
        (match cache.status with | some m => [m] | none => []) ++
        (match cache.device_info with | some m => [m] | none => []) ++
        (match cache.esp_status with | some m => [m] | none => []) ++
        (match cache.pico_status with | some m => [m] | none => [])
      { framesSent := frames, requestStateSent := isCacheStale }
  | none, true => { framesSent := [], requestStateSent := true }
  | _, false => { framesSent := [], requestStateSent := false }

/-- The device_status notification built when forwarding fails (client proxy
lines 873-884). -/
def deviceStatusNote (deviceId : String) (lastSeen : Option Nat)
    (queuedCount : Nat) : DeviceMessage :=
  { type := "device_status"
    deviceId := some deviceId
    online := some false
    lastSeen := lastSeen
    messageQueued := some true
    queuedMessages := some queuedCount
    queueTTL := some (MESSAGE_QUEUE_TTL_MS / 1000)
    message := some ("Device offline. Message queued (" ++ toString queuedCount ++
      " pending, " ++ toString (MESSAGE_QUEUE_TTL_MS / 1000) ++ "s TTL).") }

/-- Forwarding branch of handleClientMessage (client proxy lines 857-885),
taken for message types other than refresh_auth, ping and get_metrics: stamp
the timestamp, count the send, attempt sendToDevice; on failure queue the
message and notify the client with a device_status carrying
getDeviceLastSeen. -/
def forwardClientMessage (relay : RelayState) (proxy : ProxyState)
    (client : ClientConnection) (message : DeviceMessage) (now : Nat) :
    RelayState × ProxyState :=
  let message := { message with timestamp := some now }
  let counted := { client with
                   metrics := { client.metrics with
                                messagesSent := client.metrics.messagesSent + 1 } }
  let proxy := { proxy with clients := mapSet proxy.clients client.sessionId counted }
  let sendRes := sendToDevice relay client.deviceId message
  if sendRes.2 then (sendRes.1, proxy)
  else
    let pendingAfter :=
      queueMessageForDevice proxy.pendingMessages client.deviceId message
        client.sessionId now
    let proxy := { proxy with pendingMessages := pendingAfter }
    let deviceLastSeen := getDeviceLastSeen sendRes.1 client.deviceId
    let queuedCount :=
      ((mapLookup proxy.pendingMessages client.deviceId).map List.length).getD 0
    (sendRes.1, sendToClient proxy counted
      (deviceStatusNote client.deviceId deviceLastSeen queuedCount))

/-- Events observed by a pending HTTP-to-device request: a publication on the
relay, or the firing of the 10 second timer armed by the helper. -/
inductive ReqEvent where
  | pub (deviceId : String) (message : DeviceMessage)
  | timeoutFire
  deriving DecidableEq, Repr

/-- Settlement of the promise returned by sendDeviceRequest. -/
inductive ReqOutcome where
  | resolvedWith (message : DeviceMessage)
  | rejectedWith (err : String)
  deriving DecidableEq, Repr

/-- State of one pending request: whether the one-shot listener is still
subscribed, and the settlement if any. -/
structure ReqState where
  subscribed : Bool
  outcome : Option ReqOutcome
  deriving DecidableEq, Repr

/-- Filter of the one-shot handler (logs.ts lines 52-59): device id, request
id, and a type that is either the request type with suffix _response or the
literal error. -/
def matchesRequest (deviceId requestId requestType : String)
    (pubDeviceId : String) (response : DeviceMessage) : Bool :=
  pubDeviceId == deviceId && response.requestId == some requestId &&
    (response.type == requestType ++ "_response" || response.type == "error")

/-- One event observed by a pending request (logs.ts lines 46-68).  Once the
promise is settled the listener has been unsubscribed and the timer cleared,
so further events leave the state unchanged. -/
def reqStep (deviceId requestId requestType : String) (st : ReqState)
    (ev : ReqEvent) : ReqState :=
  if st.outcome.isSome then st
  else
    match ev with
    | ReqEvent.pub d m =>
        if matchesRequest deviceId requestId requestType d m then
          if m.type == "error" then
            { subscribed := false
              outcome := some (ReqOutcome.rejectedWith (m.message.getD ("Device error"))) }
          else
            { subscribed := false, outcome := some (ReqOutcome.resolvedWith m) }
        else st
    | ReqEvent.timeoutFire =>
        { subscribed := false
          outcome := some (ReqOutcome.rejectedWith ("Request timeout")) }

/-- sendDeviceRequest (logs.ts lines 34-87): subscribe, stamp the request id,
send; reject immediately when the send fails, otherwise settle on the first
matching publication or on the timer firing.  The events list is the sequence
of publications delivered while the request is pending, with timeoutFire
marking the 10 second timer. -/
def sendDeviceRequest (relay : RelayState) (deviceId : String)
    (message : DeviceMessage) (requestId : String) (events : List ReqEvent) :
    ReqState :=
  let messageWithId := { message with requestId := some requestId }
  let sent := (sendToDevice relay deviceId messageWithId).2
  if !sent then
    { subscribed := false
      outcome := some (ReqOutcome.rejectedWith ("Device not connected")) }
  else
    events.foldl (reqStep deviceId requestId message.type)
      { subscribed := true, outcome := none }

/-- Example device id used by the concrete scenarios. -/
def exDeviceId : String := "BRW-01ABCDEF"

/-- Example base64url-style key of length 43, inside the accepted [32, 64]
length range. -/
def exDeviceKey : String := "0123456789abcdefghijklmnopqrstuvwxyz0123456"

/-- Replacement scenario, step 1: the device connects on socket 1 at t=100
with a valid key. -/
def repState1 : RelayState :=
  (handleConnection {} (some exDeviceId) (some exDeviceKey) true 1 100).1

/-- Replacement scenario, step 2: a second socket (id 2) connects for the
same id at t=200; handleConnection closes socket 1 with 4002 (scheduling its
close event) and registers socket 2. -/
def repState2 : RelayState :=
  (handleConnection repState1 (some exDeviceId) (some exDeviceKey) true 2 200).1

/-- Replacement scenario, step 3: the close event of the replaced socket 1 is
delivered and the close handler registered for it runs. -/
def repState3 : RelayState :=
  handleDeviceClose repState2 ⟨exDeviceId, 1, 4002⟩

/-- C1: the claim states that after a replacement the registry holds exactly
the new connection and getConnectedDeviceCount returns 1 even after the
replaced socket close event is processed.  Evaluating the embedded code on
the replacement trace: the prior socket is indeed closed with 4002 and the
count is 1 right after the replacement, but the close handler of the old
socket deletes the registry key unconditionally, so processing its close
event removes the NEW connection and the count drops to 0, not 1. -/
theorem C1_replacement_close_event_empties_registry :
    getConnectedDeviceCount repState2 = 1
    ∧ repState2.pendingCloseEvents = [⟨exDeviceId, 1, 4002⟩]
    ∧ (mapLookup repState2.devices exDeviceId).map (fun c => c.sockId) = some 2
    ∧ getConnectedDeviceCount repState3 = 0
    ∧ mapLookup repState3.devices exDeviceId = none := by
  decide

/-- C2: the claim states that on replacement the device_online of the new
session is published after the device_offline of the previous session.
Evaluating the embedded code on the replacement trace: the publication
sequence is online (first session), online (new session), offline (previous
session) — the new online precedes the previous offline, because
device_online is published synchronously during connection setup while the
device_offline of the replaced socket is published only when its close event
is delivered later. -/
theorem C2_device_online_published_before_previous_offline :
    repState3.pubs =
      [(exDeviceId, { type := "device_online" }),
        (exDeviceId, { type := "device_online" }),
        (exDeviceId, { type := "device_offline" })] := by
  decide

/-- Client connection with one missed pong, used as the C3 counterexample. -/
def c3client : ClientConnection :=
  { sessionId := "s1", userId := "u1", deviceId := exDeviceId, missedPongs := 1 }

/-- C3 counterexample: the claim states that receipt of any frame from a
client resets missedPongs to zero; at this concrete client connection with
missedPongs = 1, processing a data frame leaves missedPongs at 1. -/
theorem C3_client_data_frame_keeps_missedPongs :
    (clientOnMessageFrame c3client 5).missedPongs = 1
    ∧ ¬ ((clientOnMessageFrame c3client 5).missedPongs = 0) := by
  decide

/-- C3 amended: any frame received on a device connection (pong or data)
resets missedPings to zero; on a client connection only pong frames reset
missedPongs, a data frame refreshes lastActivity and the received counter
but leaves missedPongs unchanged. -/
theorem C3_amended_frame_counter_resets (cc : ClientConnection)
    (dc : DeviceConnection) (now : Nat) :
    (deviceOnPong dc now).missedPings = 0
    ∧ (deviceOnMessageFrame dc now).missedPings = 0
    ∧ (clientOnPong cc now).missedPongs = 0
    ∧ (clientOnMessageFrame cc now).missedPongs = cc.missedPongs
    ∧ (clientOnMessageFrame cc now).lastActivity = now
    ∧ (clientOnMessageFrame cc now).metrics.messagesReceived
        = cc.metrics.messagesReceived + 1 := by
  exact ⟨rfl, rfl, rfl, rfl, rfl, rfl⟩

/-- C7: the per-device pending queue never exceeds 50 entries, and an enqueue
into a full queue evicts the head (oldest entry) before appending the new
entry at the tail. -/
theorem C7_queue_capacity_and_eviction
    (pendingMessages : List (String × List PendingMessage)) (deviceId : String)
    (message : DeviceMessage) (clientSessionId : String) (now : Nat)
    (hcap : ∀ d2, ((mapLookup pendingMessages d2).getD []).length ≤ MAX_QUEUED_MESSAGES) :
    (∀ d2, ((mapLookup (queueMessageForDevice pendingMessages deviceId message
        clientSessionId now) d2).getD []).length ≤ MAX_QUEUED_MESSAGES)
    ∧ (MAX_QUEUED_MESSAGES ≤ ((mapLookup pendingMessages deviceId).getD []).length →
        mapLookup (queueMessageForDevice pendingMessages deviceId message
            clientSessionId now) deviceId
          = some (((mapLookup pendingMessages deviceId).getD []).tail ++
              [{ message := message, timestamp := now, retries := 0,
                 clientSessionId := clientSessionId }])) := by
  constructor
  · intro d2
    by_cases hd : d2 = deviceId
    · subst hd
      simp only [queueMessageForDevice, mapLookup_mapSet_self, Option.getD_some]
      by_cases hfull :
          MAX_QUEUED_MESSAGES ≤ ((mapLookup pendingMessages d2).getD []).length
      · have hc := hcap d2
        simp only [if_pos hfull, List.length_append, List.length_tail]
        simp only [MAX_QUEUED_MESSAGES] at *
        simp only [List.length_cons, List.length_nil]
        omega
      · have hc := hcap d2
        simp only [if_neg hfull, List.length_append]
        simp only [MAX_QUEUED_MESSAGES] at *
        simp only [List.length_cons, List.length_nil]
        omega
    · simp only [queueMessageForDevice, mapLookup_mapSet_other _ _ _ _ hd]
      exact hcap d2
  · intro hfull
    simp only [queueMessageForDevice, if_pos hfull, mapLookup_mapSet_self]

/-- Example message used by concrete proxy scenarios. -/
def exMsg : DeviceMessage := { type := "brew_start" }

/-- One queue entry. -/
def exQueueEntry : PendingMessage :=
  { message := exMsg, timestamp := 0, retries := 0, clientSessionId := "s1" }

/-- A full queue of 50 entries. -/
def exFullQueue : List PendingMessage := List.replicate 50 exQueueEntry

/-- Pending-message map holding the full queue for the example device. -/
def exPendingFull : List (String × List PendingMessage) := [(exDeviceId, exFullQueue)]

/-- Witness for C7: enqueueing into the full 50-entry queue evicts the head
and appends at the tail. -/
theorem C7_witness :
    mapLookup (queueMessageForDevice exPendingFull exDeviceId exMsg ("s2") 7) exDeviceId
      = some (((mapLookup exPendingFull exDeviceId).getD []).tail ++
          [{ message := exMsg, timestamp := 7, retries := 0,
             clientSessionId := ("s2") }]) :=
  (C7_queue_capacity_and_eviction exPendingFull exDeviceId exMsg ("s2") 7
    (by
      intro d2
      by_cases hd : exDeviceId = d2
      · simp [mapLookup, exPendingFull, hd, exFullQueue, MAX_QUEUED_MESSAGES]
      · simp [mapLookup, exPendingFull, hd])).2 (by decide)

/-- Example full status message. -/
def exStatusMsg : DeviceMessage := { type := "status", payload := 1 }

/-- Example status_delta message. -/
def exDeltaMsg : DeviceMessage := { type := "status_delta", payload := 2 }

/-- Example cache entry holding a full status. -/
def exCacheEntry : DeviceStateCache := { status := some exStatusMsg, lastUpdated := 50 }

/-- Cache map holding the example entry. -/
def exCacheMap : List (String × DeviceStateCache) := [(exDeviceId, exCacheEntry)]

/-- C8: processing a status_delta for a device with an existing cache entry
changes only lastUpdated (set to the current time); the stored status,
device_info, esp_status and pico_status slots are unchanged, and no other
entry of the cache map is touched. -/
theorem C8_status_delta_refreshes_lastUpdated_only
    (cacheMap : List (String × DeviceStateCache)) (deviceId : String)
    (message : DeviceMessage) (now : Nat) (cache : DeviceStateCache)
    (hc : mapLookup cacheMap deviceId = some cache)
    (ht : message.type = "status_delta") :
    updateStateCache cacheMap deviceId message now
      = mapSet cacheMap deviceId { cache with lastUpdated := now }
    ∧ mapLookup (updateStateCache cacheMap deviceId message now) deviceId
      = some { status := cache.status, device_info := cache.device_info,
               esp_status := cache.esp_status, pico_status := cache.pico_status,
               lastUpdated := now } := by
  have h1 : updateStateCache cacheMap deviceId message now
      = mapSet cacheMap deviceId { cache with lastUpdated := now } := by
    simp [updateStateCache, hc, ht]
  refine ⟨h1, ?_⟩
  rw [h1, mapLookup_mapSet_self]

/-- Witness for C8 at a concrete cache map. -/
theorem C8_witness :
    updateStateCache exCacheMap exDeviceId exDeltaMsg 60
      = mapSet exCacheMap exDeviceId { exCacheEntry with lastUpdated := 60 }
    ∧ mapLookup (updateStateCache exCacheMap exDeviceId exDeltaMsg 60) exDeviceId
      = some { status := exCacheEntry.status, device_info := exCacheEntry.device_info,
               esp_status := exCacheEntry.esp_status,
               pico_status := exCacheEntry.pico_status, lastUpdated := 60 } :=
  C8_status_delta_refreshes_lastUpdated_only exCacheMap exDeviceId exDeltaMsg 60
    exCacheEntry (by decide) rfl

/-- C10: when the first cached publication for a device is a status_delta,
the proxy creates an entry with no message slots and a fresh lastUpdated; a
client hydrated from that entry while it is younger than the staleness
threshold receives no cached frames and no request_state is issued. -/
theorem C10_first_delta_gives_empty_entry_and_silent_hydration
    (cacheMap : List (String × DeviceStateCache)) (deviceId : String)
    (message : DeviceMessage) (now now2 : Nat)
    (hnone : mapLookup cacheMap deviceId = none)
    (ht : message.type = "status_delta")
    (hfresh : now2 - now < CACHE_STALE_THRESHOLD_MS) :
    mapLookup (updateStateCache cacheMap deviceId message now) deviceId
      = some { status := none, device_info := none, esp_status := none,
               pico_status := none, lastUpdated := now }
    ∧ hydrateClient (mapLookup (updateStateCache cacheMap deviceId message now)
        deviceId) true now2
      = { framesSent := [], requestStateSent := false } := by
  have h1 : mapLookup (updateStateCache cacheMap deviceId message now) deviceId
      = some { status := none, device_info := none, esp_status := none,
               pico_status := none, lastUpdated := now } := by
    simp [updateStateCache, hnone, ht, mapLookup_mapSet_self]
  refine ⟨h1, ?_⟩
  rw [h1]
  have hns : ¬ (CACHE_STALE_THRESHOLD_MS < now2 - now) := by
    simp only [CACHE_STALE_THRESHOLD_MS] at hfresh ⊢
    omega
  simp [hydrateClient, hns]

/-- Witness for C10: empty cache map, delta at t=1000, client hydrated at
t=5000. -/
theorem C10_witness :
    mapLookup (updateStateCache [] exDeviceId exDeltaMsg 1000) exDeviceId
      = some { status := none, device_info := none, esp_status := none,
               pico_status := none, lastUpdated := 1000 }
    ∧ hydrateClient (mapLookup (updateStateCache [] exDeviceId exDeltaMsg 1000)
        exDeviceId) true 5000
      = { framesSent := [], requestStateSent := false } :=
  C10_first_delta_gives_empty_entry_and_silent_hydration [] exDeviceId exDeltaMsg
    1000 5000 rfl rfl (by decide)

/-- Empty relay state. -/
def emptyRelay : RelayState := {}

/-- Empty proxy state. -/
def emptyProxy : ProxyState := {}

/-- C9 scenario, step 1: the device connects on socket 1 at t=100. -/
def c9Relay1 : RelayState :=
  (handleConnection {} (some exDeviceId) (some exDeviceKey) true 1 100).1

/-- C9 scenario, step 2: an admin forces a disconnect; the socket moves to
CLOSING, but its close event has not yet been delivered, so the registry
entry is still present. -/
def c9Relay2 : RelayState := (disconnectDevice c9Relay1 exDeviceId).1

/-- Client bound to the example device. -/
def c9client : ClientConnection :=
  { sessionId := "s1", userId := "u1", deviceId := exDeviceId }

/-- Proxy holding that one client. -/
def c9proxy : ProxyState := { clients := [("s1", c9client)] }

/-- C9 counterexample: the claim states the lastSeen of the offline
device_status notification is always null.  At this concrete reachable state
(device registered but its socket CLOSING after an admin disconnect, close
event not yet delivered) sendToDevice fails, the device_status notification
is sent, and its lastSeen is some 100, not null. -/
theorem C9_device_status_with_nonnull_lastSeen :
    isDeviceConnected c9Relay2 exDeviceId = false
    ∧ (sendToDevice c9Relay2 exDeviceId exMsg).2 = false
    ∧ getDeviceLastSeen c9Relay2 exDeviceId = some 100
    ∧ ((forwardClientMessage c9Relay2 c9proxy c9client exMsg 300).2.clientSends.map
        (fun p => (p.2.type, p.2.lastSeen))) = [("device_status", some 100)] := by
  decide

/-- C9 amended: the lastSeen field of the offline device_status notification
equals getDeviceLastSeen at that moment; it is null whenever the target
device has no registry entry (the normal situation once a disconnect close
event has been processed, since the close handler deletes the entry).  When
an entry is still present with a non-open socket, the notification carries
the lastSeen of that entry instead. -/
theorem C9_amended_lastSeen_null_when_entry_absent
    (relay : RelayState) (proxy : ProxyState) (client : ClientConnection)
    (message : DeviceMessage) (now : Nat)
    (hdev : mapLookup relay.devices client.deviceId = none)
    (hopen : client.wsOpen = true) :
    getDeviceLastSeen relay client.deviceId = none
    ∧ (forwardClientMessage relay proxy client message now).2.clientSends
      = proxy.clientSends ++ [(client.sessionId,
          deviceStatusNote client.deviceId none
            (((mapLookup (queueMessageForDevice proxy.pendingMessages client.deviceId
                  { message with timestamp := some now } client.sessionId now)
                client.deviceId).map List.length).getD 0))] := by
  have hls : getDeviceLastSeen relay client.deviceId = none := by
    simp [getDeviceLastSeen, hdev]
  refine ⟨hls, ?_⟩
  simp [forwardClientMessage, sendToDevice, hdev, sendToClient, hopen,
    getDeviceLastSeen]

/-- Witness for C9 amended: empty relay (no registry entry at all), one
client; the notification carries lastSeen = none. -/
theorem C9_amended_witness :
    getDeviceLastSeen emptyRelay c9client.deviceId = none
    ∧ (forwardClientMessage emptyRelay emptyProxy c9client exMsg 5).2.clientSends
      = emptyProxy.clientSends ++ [(c9client.sessionId,
          deviceStatusNote c9client.deviceId none
            (((mapLookup (queueMessageForDevice emptyProxy.pendingMessages
                  c9client.deviceId { exMsg with timestamp := some 5 }
                  c9client.sessionId 5) c9client.deviceId).map List.length).getD 0))] :=
  C9_amended_lastSeen_null_when_entry_absent emptyRelay emptyProxy c9client exMsg 5
    rfl rfl

/-- C5: hydration of a newly connected client.  With the device online and a
cache entry present, exactly the present slots are sent in the fixed order
status, device_info, esp_status, pico_status, and request_state is issued
iff the cache age exceeds 10 s; with the device online and no entry,
request_state is issued and no frames are sent; with the device offline,
neither happens. -/
theorem C5_hydration_spec (cachedState : Option DeviceStateCache)
    (deviceOnline : Bool) (now : Nat) :
    (∀ cache, cachedState = some cache → deviceOnline = true →
      (hydrateClient cachedState deviceOnline now).framesSent
          = [cache.status, cache.device_info, cache.esp_status,
             cache.pico_status].filterMap id
      ∧ ((hydrateClient cachedState deviceOnline now).requestStateSent = true
          ↔ CACHE_STALE_THRESHOLD_MS < now - cache.lastUpdated))
    ∧ (cachedState = none → deviceOnline = true →
        (hydrateClient cachedState deviceOnline now).framesSent = []
        ∧ (hydrateClient cachedState deviceOnline now).requestStateSent = true)
    ∧ (deviceOnline = false →
        (hydrateClient cachedState deviceOnline now).framesSent = []
        ∧ (hydrateClient cachedState deviceOnline now).requestStateSent = false) := by
  refine ⟨?_, ?_, ?_⟩
  · rintro cache rfl rfl
    constructor
    · cases h1 : cache.status <;> cases h2 : cache.device_info <;>
        cases h3 : cache.esp_status <;> cases h4 : cache.pico_status <;>
        simp [hydrateClient, h1, h2, h3, h4]
    · simp [hydrateClient]
  · rintro rfl rfl
    simp [hydrateClient]
  · rintro rfl
    cases cachedState <;> simp [hydrateClient]

/-- Witness for C5 at a concrete stale cache entry: the cached status frame
is sent and request_state is issued. -/
theorem C5_witness :
    (hydrateClient (some exCacheEntry) true 20001).framesSent
        = [exCacheEntry.status, exCacheEntry.device_info, exCacheEntry.esp_status,
           exCacheEntry.pico_status].filterMap id
    ∧ ((hydrateClient (some exCacheEntry) true 20001).requestStateSent = true
        ↔ CACHE_STALE_THRESHOLD_MS < 20001 - exCacheEntry.lastUpdated) :=
  (C5_hydration_spec (some exCacheEntry) true 20001).1 exCacheEntry rfl rfl

/-- Whether a flush notification to this session would be written: the client
is registered and its socket open. -/
def clientDeliverable (proxy : ProxyState) (sessionId : String) : Bool :=
  match mapLookup proxy.clients sessionId with
  | some client => client.wsOpen
  | none => false

/-- sendToDevice succeeds exactly when isDeviceConnected holds, and then
appends the frame. -/
theorem sendToDevice_eq (st : RelayState) (deviceId : String)
    (message : DeviceMessage) :
    sendToDevice st deviceId message =
      if isDeviceConnected st deviceId then
        ({ st with deviceSends := st.deviceSends ++ [(deviceId, message)] }, true)
      else (st, false) := by
  unfold sendToDevice isDeviceConnected
  cases h : mapLookup st.devices deviceId with
  | none => simp
  | some c => by_cases hr : c.readyState = ReadyState.OPEN <;> simp [hr]

/-- When the device cannot receive (no entry or socket not open) the flush
loop is a no-op on the accumulator. -/
theorem flush_foldl_unsendable (deviceId : String) (ms : List PendingMessage) :
    ∀ acc : FlushAcc, isDeviceConnected acc.relay deviceId = false →
      ms.foldl (flushStep deviceId) acc = acc := by
  induction ms with
  | nil => intro acc h; rfl
  | cons p rest ih =>
      intro acc h
      have hsend := sendToDevice_eq acc.relay deviceId p.message
      rw [h] at hsend
      have hstep : flushStep deviceId acc p = acc := by
        simp [flushStep, hsend]
      rw [List.foldl_cons, hstep]
      exact ih acc h

/-- When the device can receive, the flush loop leaves the registries alone,
sends every processed entry to the device in order, and notifies exactly the
deliverable originating clients in order. -/
theorem flush_foldl_sendable (deviceId : String) (ms : List PendingMessage) :
    ∀ acc : FlushAcc, isDeviceConnected acc.relay deviceId = true →
    (∀ sid c, mapLookup acc.proxy.clients sid = some c → c.sessionId = sid) →
    ((ms.foldl (flushStep deviceId) acc).relay.devices = acc.relay.devices
    ∧ (ms.foldl (flushStep deviceId) acc).proxy.clients = acc.proxy.clients
    ∧ (ms.foldl (flushStep deviceId) acc).proxy.pendingMessages
        = acc.proxy.pendingMessages
    ∧ (ms.foldl (flushStep deviceId) acc).relay.deviceSends
        = acc.relay.deviceSends ++ ms.map (fun p => (deviceId, p.message))
    ∧ (ms.foldl (flushStep deviceId) acc).proxy.clientSends
        = acc.proxy.clientSends ++
          (ms.filter (fun p => clientDeliverable acc.proxy p.clientSessionId)).map
            (fun p => (p.clientSessionId, queuedSentNote p))) := by
  induction ms with
  | nil => intro acc hs hwk; simp
  | cons p rest ih =>
      intro acc hs hwk
      have hsend := sendToDevice_eq acc.relay deviceId p.message
      rw [hs] at hsend
      simp only [List.foldl_cons]
      have hstep : ∃ extraNote : List (String × DeviceMessage),
          (extraNote = (if clientDeliverable acc.proxy p.clientSessionId then
              [(p.clientSessionId, queuedSentNote p)] else []))
          ∧ flushStep deviceId acc p =
            { relay := { acc.relay with
                         deviceSends := acc.relay.deviceSends ++ [(deviceId, p.message)] }
              proxy := { acc.proxy with
                         clientSends := acc.proxy.clientSends ++ extraNote }
              sentCount := acc.sentCount + 1 } := by
        by_cases hdel : clientDeliverable acc.proxy p.clientSessionId
        · obtain ⟨client, hcl, hopen⟩ :
              ∃ client, mapLookup acc.proxy.clients p.clientSessionId = some client
                ∧ client.wsOpen = true := by
            unfold clientDeliverable at hdel
            cases hl : mapLookup acc.proxy.clients p.clientSessionId with
            | none => rw [hl] at hdel; simp at hdel
            | some c => rw [hl] at hdel; exact ⟨c, rfl, hdel⟩
          have hsid : client.sessionId = p.clientSessionId := hwk _ _ hcl
          refine ⟨[(p.clientSessionId, queuedSentNote p)], by simp [hdel], ?_⟩
          simp [flushStep, hsend, hcl, sendToClient, hopen, hsid]
        · refine ⟨[], by simp [hdel], ?_⟩
          unfold clientDeliverable at hdel
          cases hl : mapLookup acc.proxy.clients p.clientSessionId with
          | none => simp [flushStep, hsend, hl]
          | some c =>
              rw [hl] at hdel
              simp only [Bool.not_eq_true] at hdel
              simp [flushStep, hsend, hl, sendToClient, hdel]
      obtain ⟨extraNote, hnote, hstep⟩ := hstep
      have hs1 : isDeviceConnected (flushStep deviceId acc p).relay deviceId = true := by
        rw [hstep]; exact hs
      have hwk1 : ∀ sid c,
          mapLookup (flushStep deviceId acc p).proxy.clients sid = some c →
            c.sessionId = sid := by
        intro sid c hc
        rw [hstep] at hc
        exact hwk sid c hc
      have hcd : ∀ sid, clientDeliverable (flushStep deviceId acc p).proxy sid
          = clientDeliverable acc.proxy sid := by
        intro sid
        rw [hstep]
        rfl
      obtain ⟨ih1, ih2, ih3, ih4, ih5⟩ := ih (flushStep deviceId acc p) hs1 hwk1
      simp only [hcd] at ih5
      refine ⟨?_, ?_, ?_, ?_, ?_⟩
      · rw [ih1, hstep]
      · rw [ih2, hstep]
      · rw [ih3, hstep]
      · rw [ih4, hstep]
        simp
      · rw [ih5, hstep]
        by_cases hdel : clientDeliverable acc.proxy p.clientSessionId
        · simp only [hdel, if_true] at hnote
          simp [List.filter_cons, hdel, hnote]
        · simp only [Bool.not_eq_true] at hdel
          simp only [hdel, if_false] at hnote
          simp [List.filter_cons, hdel, hnote]

/-- C4: on device_online with a non-empty pending queue for the device, the
flush discards every entry enqueued more than 10 s ago without delivering
it, attempts sendToDevice for each remaining entry in FIFO order (all are
sent when the device is connected, none otherwise), sends the
queued_message_sent notification (with originalTimestamp and messageType) to
the originating client for each successful send when that client is still
registered with an open socket, and deletes the queue afterwards regardless
of individual outcomes.  The hypothesis hwk is the registry invariant that
the clients map is keyed by sessionId. -/
theorem C4_flush_spec (relay : RelayState) (proxy : ProxyState) (deviceId : String)
    (now : Nat) (queue : List PendingMessage)
    (hq : mapLookup proxy.pendingMessages deviceId = some queue)
    (hne : queue ≠ [])
    (hwk : ∀ sid c, mapLookup proxy.clients sid = some c → c.sessionId = sid) :
    mapLookup (flushPendingMessages relay proxy deviceId now).2.pendingMessages
        deviceId = none
    ∧ (flushPendingMessages relay proxy deviceId now).1.deviceSends
        = relay.deviceSends ++
          (if isDeviceConnected relay deviceId then
              (queue.filter (fun p => !(isExpired now p))).map
                (fun p => (deviceId, p.message))
            else [])
    ∧ (flushPendingMessages relay proxy deviceId now).2.clientSends
        = proxy.clientSends ++
          (if isDeviceConnected relay deviceId then
              ((queue.filter (fun p => !(isExpired now p))).filter
                  (fun p => clientDeliverable proxy p.clientSessionId)).map
                (fun p => (p.clientSessionId, queuedSentNote p))
            else []) := by
  have hemp : queue.isEmpty = false := by
    cases queue with
    | nil => exact absurd rfl hne
    | cons a as => rfl
  by_cases hs : isDeviceConnected relay deviceId = true
  · obtain ⟨ih1, ih2, ih3, ih4, ih5⟩ :=
      flush_foldl_sendable deviceId (queue.filter (fun p => !(isExpired now p)))
        { relay := relay, proxy := proxy, sentCount := 0 } hs hwk
    simp only [flushPendingMessages, hq, hemp, Bool.false_eq_true, if_false]
    refine ⟨?_, ?_, ?_⟩
    · exact mapLookup_mapDelete_self _ _
    · rw [ih4]
      simp [hs]
    · rw [ih5]
      simp [hs]
  · have hfold := flush_foldl_unsendable deviceId
      (queue.filter (fun p => !(isExpired now p)))
      { relay := relay, proxy := proxy, sentCount := 0 }
      (by simpa using hs)
    simp only [flushPendingMessages, hq, hemp, Bool.false_eq_true, if_false]
    refine ⟨?_, ?_, ?_⟩
    · exact mapLookup_mapDelete_self _ _
    · rw [hfold]
      simp [hs]
    · rw [hfold]
      simp [hs]

/-- Relay for the C4 witness: the device is connected and open. -/
def c4Relay : RelayState :=
  (handleConnection {} (some exDeviceId) (some exDeviceKey) true 1 100).1

/-- Client originating the queued messages. -/
def c4client : ClientConnection :=
  { sessionId := "s1", userId := "u1", deviceId := exDeviceId }

/-- Queue with one expired entry (t=0) and two fresh ones, one of which was
sent by a client that is no longer registered. -/
def c4queue : List PendingMessage :=
  [{ message := exMsg, timestamp := 0, retries := 0, clientSessionId := "s1" },
   { message := { type := "brew_stop" }, timestamp := 15000, retries := 0,
     clientSessionId := "s1" },
   { message := exMsg, timestamp := 16000, retries := 0,
     clientSessionId := "ghost" }]

/-- Proxy for the C4 witness. -/
def c4proxy : ProxyState :=
  { clients := [("s1", c4client)], pendingMessages := [(exDeviceId, c4queue)] }

/-- Witness for C4 at the concrete flush scenario (now = 20000). -/
theorem C4_witness :
    mapLookup (flushPendingMessages c4Relay c4proxy exDeviceId 20000).2.pendingMessages
        exDeviceId = none
    ∧ (flushPendingMessages c4Relay c4proxy exDeviceId 20000).1.deviceSends
        = c4Relay.deviceSends ++
          (if isDeviceConnected c4Relay exDeviceId then
              (c4queue.filter (fun p => !(isExpired 20000 p))).map
                (fun p => (exDeviceId, p.message))
            else [])
    ∧ (flushPendingMessages c4Relay c4proxy exDeviceId 20000).2.clientSends
        = c4proxy.clientSends ++
          (if isDeviceConnected c4Relay exDeviceId then
              ((c4queue.filter (fun p => !(isExpired 20000 p))).filter
                  (fun p => clientDeliverable c4proxy p.clientSessionId)).map
                (fun p => (p.clientSessionId, queuedSentNote p))
            else []) :=
  C4_flush_spec c4Relay c4proxy exDeviceId 20000 c4queue (by decide) (by decide)
    (by
      intro sid c hc
      by_cases h : ("s1" : String) = sid
      · subst h
        have hcc : c4client = c := by
          simpa [c4proxy, mapLookup] using hc
        rw [← hcc]
        rfl
      · exfalso
        simp [c4proxy, mapLookup, h] at hc)

/-- An event settles the pending request iff it is the timer firing or a
publication passing the handler filter. -/
def relevantEvent (deviceId requestId requestType : String) (ev : ReqEvent) : Bool :=
  match ev with
  | ReqEvent.pub d m => matchesRequest deviceId requestId requestType d m
  | ReqEvent.timeoutFire => true

/-- State reached when a relevant event settles the request. -/
def settleEvent (ev : ReqEvent) : ReqState :=
  match ev with
  | ReqEvent.pub _ m =>
      if m.type == "error" then
        { subscribed := false
          outcome := some (ReqOutcome.rejectedWith (m.message.getD ("Device error"))) }
      else
        { subscribed := false, outcome := some (ReqOutcome.resolvedWith m) }
  | ReqEvent.timeoutFire =>
      { subscribed := false
        outcome := some (ReqOutcome.rejectedWith ("Request timeout")) }

theorem settleEvent_outcome_isSome (ev : ReqEvent) :
    (settleEvent ev).outcome.isSome = true := by
  cases ev with
  | timeoutFire => rfl
  | pub d m => by_cases hm : m.type == "error" <;> simp [settleEvent, hm]

theorem settleEvent_subscribed_false (ev : ReqEvent) :
    (settleEvent ev).subscribed = false := by
  cases ev with
  | timeoutFire => rfl
  | pub d m => by_cases hm : m.type == "error" <;> simp [settleEvent, hm]

theorem reqStep_settled (deviceId requestId requestType : String) (st : ReqState)
    (ev : ReqEvent) (h : st.outcome.isSome = true) :
    reqStep deviceId requestId requestType st ev = st := by
  simp [reqStep, h]

theorem foldl_reqStep_settled (deviceId requestId requestType : String)
    (events : List ReqEvent) (st : ReqState) (h : st.outcome.isSome = true) :
    events.foldl (reqStep deviceId requestId requestType) st = st := by
  induction events with
  | nil => rfl
  | cons e es ih => rw [List.foldl_cons, reqStep_settled _ _ _ _ _ h]; exact ih

/-- A pending request is settled by the first relevant event of the queue and
stays pending when there is none. -/
theorem foldl_reqStep_pending (deviceId requestId requestType : String)
    (events : List ReqEvent) :
    (events.find? (relevantEvent deviceId requestId requestType) = none →
      events.foldl (reqStep deviceId requestId requestType)
        { subscribed := true, outcome := none }
        = { subscribed := true, outcome := none })
    ∧ (∀ ev, events.find? (relevantEvent deviceId requestId requestType) = some ev →
        events.foldl (reqStep deviceId requestId requestType)
          { subscribed := true, outcome := none } = settleEvent ev) := by
  induction events with
  | nil =>
      refine ⟨fun _ => rfl, ?_⟩
      intro ev h
      rw [List.find?_nil] at h
      exact Option.noConfusion h
  | cons e es ih =>
      by_cases hr : relevantEvent deviceId requestId requestType e = true
      · have hstep : reqStep deviceId requestId requestType
            { subscribed := true, outcome := none } e = settleEvent e := by
          cases e with
          | timeoutFire => rfl
          | pub d m =>
              simp only [relevantEvent] at hr
              simp [reqStep, settleEvent, hr]
        refine ⟨?_, ?_⟩
        · intro h
          rw [List.find?_cons_of_pos _ hr] at h
          exact Option.noConfusion h
        · intro ev h
          rw [List.find?_cons_of_pos _ hr] at h
          obtain rfl : e = ev := by injection h
          rw [List.foldl_cons, hstep]
          exact foldl_reqStep_settled _ _ _ _ _ (settleEvent_outcome_isSome e)
      · have hrf : relevantEvent deviceId requestId requestType e = false := by
          simpa using hr
        have hstep : reqStep deviceId requestId requestType
            { subscribed := true, outcome := none } e
            = { subscribed := true, outcome := none } := by
          cases e with
          | timeoutFire => simp [relevantEvent] at hrf
          | pub d m =>
              simp only [relevantEvent] at hrf
              simp [reqStep, hrf]
        refine ⟨?_, ?_⟩
        · intro h
          rw [List.find?_cons_of_neg _ hr] at h
          rw [List.foldl_cons, hstep]
          exact ih.1 h
        · intro ev h
          rw [List.find?_cons_of_neg _ hr] at h
          rw [List.foldl_cons, hstep]
          exact ih.2 ev h

/-- A response type built by suffixing _response is never the literal
error. -/
theorem append_response_ne_error (t : String) : t ++ "_response" ≠ "error" := by
  intro h
  have hlen := congrArg String.length h
  rw [String.length_append] at hlen
  have h9 : ("_response" : String).length = 9 := by decide
  have h5 : ("error" : String).length = 5 := by decide
  rw [h9, h5] at hlen
  omega

/-- C6: the request/response helper rejects immediately with Device not
connected when sendToDevice fails; otherwise it settles on the first
publication matching (deviceId, requestId): resolving when its type is the
request type suffixed _response, rejecting with the carried message when its
type is error, and rejecting with Request timeout when the timer fires
first; on every settled exit the one-shot listener is unsubscribed. -/
theorem C6_sendDeviceRequest_spec (relay : RelayState) (deviceId : String)
    (message : DeviceMessage) (requestId : String) (events : List ReqEvent) :
    (isDeviceConnected relay deviceId = false →
      sendDeviceRequest relay deviceId message requestId events
        = { subscribed := false
            outcome := some (ReqOutcome.rejectedWith ("Device not connected")) })
    ∧ (isDeviceConnected relay deviceId = true →
        (∀ pd m, events.find? (relevantEvent deviceId requestId message.type)
              = some (ReqEvent.pub pd m) →
          (m.type = message.type ++ "_response" →
            sendDeviceRequest relay deviceId message requestId events
              = { subscribed := false
                  outcome := some (ReqOutcome.resolvedWith m) })
          ∧ (m.type = "error" →
            sendDeviceRequest relay deviceId message requestId events
              = { subscribed := false
                  outcome := some (ReqOutcome.rejectedWith
                    (m.message.getD ("Device error"))) }))
        ∧ (events.find? (relevantEvent deviceId requestId message.type)
              = some ReqEvent.timeoutFire →
            sendDeviceRequest relay deviceId message requestId events
              = { subscribed := false
                  outcome := some (ReqOutcome.rejectedWith ("Request timeout")) }))
    ∧ ((sendDeviceRequest relay deviceId message requestId events).outcome.isSome
          = true →
        (sendDeviceRequest relay deviceId message requestId events).subscribed
          = false) := by
  have hsend := sendToDevice_eq relay deviceId { message with requestId := some requestId }
  by_cases hs : isDeviceConnected relay deviceId = true
  · rw [hs] at hsend
    have hres : sendDeviceRequest relay deviceId message requestId events
        = events.foldl (reqStep deviceId requestId message.type)
            { subscribed := true, outcome := none } := by
      simp [sendDeviceRequest, hsend]
    refine ⟨?_, ?_, ?_⟩
    · intro hf
      rw [hf] at hs
      exact Bool.noConfusion hs
    · intro _
      refine ⟨?_, ?_⟩
      · intro pd m hfind
        have hset := (foldl_reqStep_pending deviceId requestId message.type events).2
          _ hfind
        refine ⟨?_, ?_⟩
        · intro hty
          rw [hres, hset]
          have hne2 : ((message.type ++ "_response") == "error") = false := by
            rw [beq_eq_false_iff_ne]
            exact append_response_ne_error message.type
          simp [settleEvent, hty, hne2]
        · intro hty
          rw [hres, hset]
          simp [settleEvent, hty]
      · intro hfind
        have hset := (foldl_reqStep_pending deviceId requestId message.type events).2
          _ hfind
        rw [hres, hset]
        rfl
    · intro hsome
      rw [hres] at hsome ⊢
      cases hfind : events.find? (relevantEvent deviceId requestId message.type) with
      | none =>
          rw [(foldl_reqStep_pending _ _ _ events).1 hfind] at hsome
          exact Bool.noConfusion hsome
      | some ev =>
          rw [(foldl_reqStep_pending _ _ _ events).2 ev hfind]
          exact settleEvent_subscribed_false ev
  · have hsf : isDeviceConnected relay deviceId = false := by simpa using hs
    rw [hsf] at hsend
    have hres : sendDeviceRequest relay deviceId message requestId events
        = { subscribed := false
            outcome := some (ReqOutcome.rejectedWith ("Device not connected")) } := by
      simp [sendDeviceRequest, hsend]
    refine ⟨fun _ => hres, ?_, ?_⟩
    · intro hc
      exact absurd hc hs
    · intro _
      rw [hres]

/-- Relay with the example device connected and open, for the C6 witness. -/
def reqRelay : RelayState :=
  { devices := [(exDeviceId,
      { sockId := 1, readyState := ReadyState.OPEN, connectedAt := 0,
        lastSeen := 0, missedPings := 0 })] }

/-- Request sent by the GET /api/logs/info route. -/
def reqMsg : DeviceMessage := { type := "get_log_info" }

/-- Matching response published by the device. -/
def respMsg : DeviceMessage :=
  { type := "get_log_info_response", requestId := some "r1", payload := 9 }

/-- Events seen while the request is pending: an unrelated publication, the
matching response, then the timer firing (ignored after settlement). -/
def reqEvents : List ReqEvent :=
  [ReqEvent.pub ("BRW-99999999") { type := "noise" },
   ReqEvent.pub exDeviceId respMsg,
   ReqEvent.timeoutFire]

/-- Witness for C6: the helper resolves with the matching response. -/
theorem C6_witness :
    sendDeviceRequest reqRelay exDeviceId reqMsg ("r1") reqEvents
      = { subscribed := false, outcome := some (ReqOutcome.resolvedWith respMsg) } :=
  ((((C6_sendDeviceRequest_spec reqRelay exDeviceId reqMsg ("r1") reqEvents).2.1
      (by decide)).1 exDeviceId respMsg (by decide)).1) (by decide)
